import Mathlib

/-!
Shallow embedding of the live-world coordinator of the Pumpkin server
(`pumpkin/src/world/mod.rs`): the chunk streaming pipeline, block store
access, spawn-position resolution, the player / living-entity registries,
and the respawn / entity-removal lifecycle steps.  Pure data and effects
(packets sent, `clean_chunk` calls) are made explicit; machine integers
are `Int` with explicit 32-bit wrapping where the source relies on `i32`
arithmetic.
-/

namespace PumpkinWorld

set_option maxRecDepth 8000

/-- Wrapping 32-bit signed arithmetic: the representative of `n` modulo `2^32`
in the interval `[-2^31, 2^31)`.  Models Rust release-mode `i32` overflow. -/
def wrap32 (n : Int) : Int := (n + 2 ^ 31) % 2 ^ 32 - 2 ^ 31

/-- Chunk coordinate (source: `pumpkin_core::math::vector2::Vector2<i32>` as used
for chunk positions). -/
structure Vector2 where
  x : Int
  z : Int
deriving DecidableEq, Repr

/-- Block position (source: `WorldPosition(Vector3<i32>)`). -/
structure Vector3i where
  x : Int
  y : Int
  z : Int
deriving DecidableEq, Repr

/-- Source: `enum GetBlockError { BlockOutOfWorldBounds, InvalidBlockId }`. -/
inductive GetBlockError where
  | BlockOutOfWorldBounds
  | InvalidBlockId
deriving DecidableEq, Repr

/-- Block state as consumed by this core: only the `air` flag is read
(in `get_top_block`).  Source type: `pumpkin_world::block::block_registry::State`. -/
structure BlockState where
  air : Bool
deriving DecidableEq, Repr

/-- Modelled from the spec: `WorldPosition::chunk_and_chunk_relative_position`
lives in the `pumpkin_core` collaborator, outside this repository's sources.
Per spec section 4.4 it resolves a position to (chunk coordinate, in-chunk
relative coordinate): chunk coordinates are the floor-division of x and z by 16,
the relative coordinate keeps y and reduces x and z modulo 16. -/
def chunk_and_chunk_relative_position (p : Vector3i) : Vector2 × Vector3i :=
  (⟨Int.fdiv p.x 16, Int.fdiv p.z 16⟩, ⟨Int.emod p.x 16, p.y, Int.emod p.z 16⟩)

/-- Modelled from the spec: the block store of one `ChunkData`
(`pumpkin_world::chunk::ChunkData`, outside this repository's sources).
Per the spec's data model a chunk holds block-state data for a fixed vertical
column; the valid vertical range is y = -64 ..= 319 (spec section 4.5).
`states` is the stored state id at a relative coordinate. -/
structure ChunkBlocks where
  states : Int → Int → Int → Nat

/-- Modelled from the spec: `ChunkData::blocks.get_block` returns the stored id,
or `None` when the vertical coordinate is out of the valid column range
(surfaced by `get_block_state_id` as `BlockOutOfWorldBounds`). -/
def ChunkBlocks.get_block (c : ChunkBlocks) (rel : Vector3i) : Option Nat :=
  if -64 ≤ rel.y ∧ rel.y ≤ 319 then some (c.states rel.x rel.y rel.z) else none

/-- Modelled from the spec: `ChunkData::blocks.set_block` stores the new id and
returns the previously stored id (spec section 4.4: "compute and return the
previous value").  The claims only exercise in-range writes; an out-of-range
write is modelled as leaving the store unchanged. -/
def ChunkBlocks.set_block (c : ChunkBlocks) (rel : Vector3i) (id : Nat) :
    Nat × ChunkBlocks :=
  if -64 ≤ rel.y ∧ rel.y ≤ 319 then
    (c.states rel.x rel.y rel.z,
     ⟨fun a b d =>
        if a = rel.x ∧ b = rel.y ∧ d = rel.z then id else c.states a b d⟩)
  else (c.states rel.x rel.y rel.z, c)

/-- Packets this core sends, reduced to the fields the claims observe. -/
inductive Packet where
  | blockUpdate (pos : Vector3i) (id : Nat)
  | chunkData (pos : Vector2)
  | removeEntities (entityId : Int)
  | respawnPkt (deathLocation : Vector3i) (dataKept : Nat)
  | gameEventStartWaitingChunks
  | spawnEntity (entityId : Int) (uuid : Nat)
  | setEntityMetadata (entityId : Int)
deriving DecidableEq, Repr

/-- The block-access-relevant projection of `World`: the Level's chunk store,
the Level's watch set (`Level::is_chunk_watched`), and the static block/state
registry lookup (`get_state_by_state_id`, modelled from the spec as an
id -> state partial lookup since the registry crate is outside src). -/
structure WorldModel where
  chunks : Vector2 → ChunkBlocks
  watched : Vector2 → Bool
  registry : Nat → Option BlockState

/-- Embeds `World::receive_chunk` (mod.rs lines 895-911): fetch the single
chunk through the channel, then — if the chunk is not watched — call
`Level::clean_chunk`; the chunk is returned to the caller EITHER WAY
(line 910 returns `chunk` unconditionally).  The second component records
the `clean_chunk` calls made. -/
def receive_chunk (w : WorldModel) (pos : Vector2) : ChunkBlocks × List Vector2 :=
  (w.chunks pos, if w.watched pos then [] else [pos])

/-- Embeds `World::get_block_state_id` (mod.rs lines 928-939): resolve the
position, fetch the owning chunk, read the stored id; `None` from the chunk
becomes `BlockOutOfWorldBounds`.  Note the id is returned as-is, without
consulting the block/state registry. -/
def get_block_state_id (w : WorldModel) (pos : Vector3i) :
    Except GetBlockError Nat :=
  let cr := chunk_and_chunk_relative_position pos
  let chunk := (receive_chunk w cr.1).1
  match chunk.get_block cr.2 with
  | none => Except.error GetBlockError.BlockOutOfWorldBounds
  | some id => Except.ok id

/-- Embeds `World::get_block_state` (mod.rs lines 951-957): read the id, then
resolve it in the registry; an unresolvable id becomes `InvalidBlockId`. -/
def get_block_state (w : WorldModel) (pos : Vector3i) :
    Except GetBlockError BlockState :=
  match get_block_state_id w pos with
  | Except.error e => Except.error e
  | Except.ok id =>
    match w.registry id with
    | none => Except.error GetBlockError.InvalidBlockId
    | some st => Except.ok st

/-- Embeds `World::set_block_state` (mod.rs lines 859-879): resolve the
position, fetch the owning chunk, write the new id, broadcast a
`CBlockUpdate`, and return the replaced id.  Result: (world after the write,
replaced state id, packets broadcast).  Note the return type carries no
error: the source signature is a plain `u16`. -/
def set_block_state (w : WorldModel) (pos : Vector3i) (id : Nat) :
    WorldModel × Nat × List Packet :=
  let cr := chunk_and_chunk_relative_position pos
  let chunk := (receive_chunk w cr.1).1
  let res := chunk.set_block cr.2 id
  ({ w with chunks := fun c => if c = cr.1 then res.2 else w.chunks c },
   res.1, [Packet.blockUpdate pos id])

/-- Descending list `y, y-1, ..., y-n+1`; `downFrom 384 319` embeds the
iteration order of `(-64..=319).rev()`. -/
def downFrom : Nat → Int → List Int
  | 0, _ => []
  | n + 1, y => y :: downFrom n (y - 1)

/-- The y coordinates scanned by `get_top_block`, top down: 319, 318, ..., -64. -/
def topDownYs : List Int := downFrom 384 319

/-- The loop body of `World::get_top_block` (mod.rs lines 219-228) over an
explicit list of remaining y coordinates: an `Ok` air block continues the
scan; anything else (a non-air block or an error) returns the current y.
An exhausted scan returns the source's fallback value `319`. -/
def get_top_block_go (w : WorldModel) (x z : Int) : List Int → Int
  | [] => 319
  | y :: rest =>
    match get_block_state w ⟨x, y, z⟩ with
    | Except.ok st => if st.air then get_top_block_go w x z rest else y
    | Except.error _ => y

/-- Embeds `World::get_top_block` (mod.rs lines 218-230). -/
def get_top_block (w : WorldModel) (pos : Vector2) : Int :=
  get_top_block_go w pos.x pos.z topDownYs

/-- The scan-continuation test of `get_top_block`: true exactly when the block
state read succeeds and the state is air. -/
def is_air_block (w : WorldModel) (x y z : Int) : Bool :=
  match get_block_state w ⟨x, y, z⟩ with
  | Except.ok st => st.air
  | Except.error _ => false

/-- The result of `World::receive_chunks` (mod.rs lines 884-893) when it does
not panic: the bounded channel's capacity (`mpsc::channel(chunks.len())`) and
whether a fetch worker was spawned on the rayon pool (`rayon::spawn`, which
the source does unconditionally). -/
structure ChunkReceiver where
  capacity : Nat
  workerSpawned : Bool
deriving DecidableEq, Repr

/-- Embeds `World::receive_chunks` (mod.rs lines 884-893).  It first creates a
bounded channel of capacity `chunks.len()`; tokio's bounded `mpsc::channel`
panics when the requested capacity is 0 — modelled as `Except.error` carrying
tokio's panic message — and otherwise the fetch worker is spawned
unconditionally. -/
def receive_chunks (chunks : List Vector2) : Except String ChunkReceiver :=
  if chunks.length = 0 then Except.error "mpsc bounded channel requires buffer > 0"
  else Except.ok ⟨chunks.length, true⟩

/-- Embeds the consumer loop spawned by `World::spawn_world_chunks`
(mod.rs lines 604-634) over the list of chunk positions received from the
channel, in order.  For each received chunk the watch set is re-checked:
an unwatched chunk is cleaned (`Level::clean_chunk`) and skipped; a watched
chunk is sent as a `CChunkData` packet unless the client connection is
closed.  Result: (positions sent to the client, positions cleaned). -/
def stream_consume (w : WorldModel) (clientClosed : Bool) :
    List Vector2 → List Vector2 × List Vector2
  | [] => ([], [])
  | pos :: rest =>
    let r := stream_consume w clientClosed rest
    if w.watched pos = false then (r.1, pos :: r.2)
    else if clientClosed then (r.1, r.2)
    else (pos :: r.1, r.2)

/-- The sort key of `spawn_world_chunks` (mod.rs lines 595-599): the squared
distance of `pos` from `center_chunk`, computed in wrapping `i32` arithmetic
exactly as `sort_unstable_by_key` receives it. -/
def sort_key (center pos : Vector2) : Int :=
  let rx := wrap32 (pos.x - center.x)
  let rz := wrap32 (pos.z - center.z)
  wrap32 (wrap32 (rx * rx) + wrap32 (rz * rz))

/-- Insertion of one element into a list already sorted by the key `k`. -/
def insertByKey (k : Vector2 → Int) (a : Vector2) : List Vector2 → List Vector2
  | [] => [a]
  | b :: bs => if k a ≤ k b then a :: b :: bs else b :: insertByKey k a bs

/-- Sorting by the key `k`.  Models `slice::sort_unstable_by_key`: the source's
sort is a comparison sort by this key (and coincides with insertion sort on
the short slices Rust handles with its insertion-sort fallback); every theorem
stated about it below is independent of how key-equal elements are ordered. -/
def sortByKey (k : Vector2 → Int) (l : List Vector2) : List Vector2 :=
  l.foldr (insertByKey k) []

/-- Embeds the dispatch-ordering step of `World::spawn_world_chunks`
(mod.rs lines 593-601): the requested chunk list is sorted by the wrapping
squared-distance key before being handed to `receive_chunks`. -/
def spawn_world_chunks_dispatch (chunks : List Vector2) (center : Vector2) :
    List Vector2 :=
  sortByKey (sort_key center) chunks

/-- True squared Euclidean distance between chunk coordinates, in unbounded
integer arithmetic (the quantity the spec's ordering property refers to). -/
def sqDist (center pos : Vector2) : Int :=
  (pos.x - center.x) * (pos.x - center.x) + (pos.z - center.z) * (pos.z - center.z)

/-- Extensional model of `HashMap<Uuid, Arc<Player>>` as an association list
with unique keys; UUIDs and handle identities are numbered.  `insert` replaces
any existing entry for the key, as `HashMap::insert` does. -/
def PlayerMap := List (Nat × Nat)

def hashmap_insert (m : List (Nat × Nat)) (k v : Nat) : List (Nat × Nat) :=
  (k, v) :: m.filter fun p => p.1 ≠ k

def hashmap_remove (m : List (Nat × Nat)) (k : Nat) : List (Nat × Nat) :=
  m.filter fun p => p.1 ≠ k

def hashmap_get (m : List (Nat × Nat)) (k : Nat) : Option Nat :=
  (m.find? fun p => p.1 = k).map Prod.snd

/-- Embeds the map effect of `World::add_player` (mod.rs lines 766-781):
`current_players.insert(uuid, player)`.  The join-message loop that follows
(lines 772-779) only reads the map to send a system message and does not
mutate it. -/
def add_player (m : PlayerMap) (uuid handle : Nat) : PlayerMap :=
  hashmap_insert m uuid handle

/-- Embeds the map effect of `World::remove_player` (mod.rs lines 801-806):
`current_players.remove(&uuid)`; the packets broadcast afterwards do not
touch the map. -/
def remove_player (m : PlayerMap) (uuid : Nat) : PlayerMap :=
  hashmap_remove m uuid

/-- Embeds `World::get_player_by_uuid` (mod.rs lines 683-685):
`current_players.get(&id).cloned()`. -/
def get_player_by_uuid (m : PlayerMap) (uuid : Nat) : Option Nat :=
  hashmap_get m uuid

/-- One registry operation of the add/remove vocabulary the spec's invariant
quantifies over. -/
inductive RegOp where
  | add (uuid handle : Nat)
  | remove (uuid : Nat)
deriving DecidableEq, Repr

/-- Applies a sequence of registry operations in order. -/
def apply_reg_ops : List RegOp → PlayerMap → PlayerMap
  | [], m => m
  | RegOp.add u h :: rest, m => apply_reg_ops rest (add_player m u h)
  | RegOp.remove u :: rest, m => apply_reg_ops rest (remove_player m u)

/-- Rational 3-vector standing in for `Vector3<f64>`; no claim settled here
depends on floating-point rounding behaviour. -/
structure Vec3q where
  x : Rat
  y : Rat
  z : Rat
deriving DecidableEq, Repr

/-- Rounding of `f64::round` (half away from zero), on the rational model. -/
def roundQ (q : Rat) : Int :=
  if 0 ≤ q then ⌊q + 1 / 2⌋ else -⌊1 / 2 - q⌋

/-- The mutable, shared state of one `Player` handle that `respawn_player`
touches: the living entity's `last_pos` and the health/food/saturation set by
`set_health(20.0, 20, 20.0)`. -/
structure PlayerData where
  lastPos : Vec3q
  health : Rat
  food : Int
  saturation : Rat
deriving DecidableEq, Repr

/-- The respawn-relevant projection of `World`: the block side (used by
`get_top_block`), the `current_players` map from UUID to handle identity, and
the heap of shared `Arc<Player>` handles (mutated in place through the map's
reference-counted pointers, never by rewriting the map itself). -/
structure WorldR where
  blocks : WorldModel
  currentPlayers : List (Nat × Nat)
  handles : Nat → PlayerData

/-- Embeds `World::respawn_player` (mod.rs lines 454-576).  Effects, in source
order: send `CRespawn` (death location = the rounded last position, data kept
iff `alive`), resend abilities and permission level (player-level sends, not
modelled as world state), recompute the spawn position from
`get_top_block` at column (10, 10) and teleport there, store it as the
entity's `last_pos`, reinitialize the worldborder, resend the start-waiting
game event, re-broadcast `CSpawnEntity` to everyone else, restream chunks,
broadcast the entity metadata, and set health to full.  The `current_players`
map is only read (by the broadcasts); only the handle `handle` is mutated. -/
def respawn_player (w : WorldR) (uuid handle : Nat) (alive : Bool) :
    WorldR × List Packet :=
  let lastPos := (w.handles handle).lastPos
  let deathLocation : Vector3i :=
    ⟨roundQ lastPos.x, roundQ lastPos.y, roundQ lastPos.z⟩
  let dataKept : Nat := if alive then 1 else 0
  let top := get_top_block w.blocks ⟨10, 10⟩
  let position : Vec3q := ⟨10, (top : Rat) + 1, 10⟩
  let entityId : Int := Int.ofNat handle
  let w1 : WorldR :=
    { w with
      handles := fun h =>
        if h = handle then
          { w.handles h with
            lastPos := position, health := 20, food := 20, saturation := 20 }
        else w.handles h }
  (w1,
   [Packet.respawnPkt deathLocation dataKept,
    Packet.gameEventStartWaitingChunks,
    Packet.spawnEntity entityId uuid,
    Packet.setEntityMetadata entityId])

/-- Pose values read by the claims (source: `pumpkin_entity::pose::EntityPose`). -/
inductive Pose where
  | standing
  | dying
deriving DecidableEq, Repr

/-- The state of one shared `Arc<LivingEntity>` handle. -/
structure LivingData where
  entityId : Int
  pose : Pose
deriving DecidableEq, Repr

/-- The living-entity projection of `World`: the UUID key set of
`current_living_entities` plus the heap of shared handles, and the packet
broadcast log. -/
structure LivingWorld where
  currentLivingEntities : List Nat
  living : Nat → LivingData
  packets : List Packet

/-- Embeds `World::get_living_entity_by_entityid` (mod.rs lines 652-659):
scan the map's values for a matching numeric entity id. -/
def get_living_entity_by_entityid (w : LivingWorld) (id : Int) : Option Nat :=
  w.currentLivingEntities.find? fun u => (w.living u).entityId = id

/-- Embeds `World::remove_living_entity` (mod.rs lines 842-851) up to the
point where the deferred task is scheduled (the ≈2 s grace window): the map
is CLONED (`world.current_living_entities.lock().await.clone()`, line 843)
into the task's captured variable, and the entity's pose is set to `Dying`;
nothing has been removed yet. -/
def remove_living_entity_grace (w : LivingWorld) (uuid : Nat) :
    LivingWorld × List Nat :=
  ({ w with
     living := fun u =>
       if u = uuid then { w.living u with pose := Pose.dying }
       else w.living u },
   w.currentLivingEntities)

/-- Embeds the deferred task of `remove_living_entity` (mod.rs lines 846-850)
running to completion after the 2000 ms sleep: it broadcasts one
`CRemoveEntities` packet (`remove_entity`, lines 853-856) and then removes the
UUID from the captured CLONE of the map (line 849) — the world's own
`current_living_entities` is left untouched.  Result: (world after the task,
the mutated clone, which the task then drops). -/
def remove_living_entity_completed (w : LivingWorld) (uuid : Nat) :
    LivingWorld × List Nat :=
  let grace := remove_living_entity_grace w uuid
  let w1 := grace.1
  let cloned := grace.2
  ({ w1 with
     packets := w1.packets ++ [Packet.removeEntities (w1.living uuid).entityId] },
   cloned.filter fun u => u ≠ uuid)

/-- Air block state (id resolves, `air = true`). -/
def airState : BlockState := ⟨true⟩

/-- Solid block state (id resolves, `air = false`). -/
def stoneState : BlockState := ⟨false⟩

/-- A level whose chunks all store state id 0, resolved by the registry to an
air state; every chunk watched. -/
def allAirWorld : WorldModel :=
  { chunks := fun _ => ⟨fun _ _ _ => 0⟩
    watched := fun _ => true
    registry := fun id => if id = 0 then some airState else none }

/-- A level whose chunks all store state id 0, resolved by the registry to a
solid (non-air) state; every chunk watched. -/
def allStoneWorld : WorldModel :=
  { chunks := fun _ => ⟨fun _ _ _ => 0⟩
    watched := fun _ => true
    registry := fun id => if id = 0 then some stoneState else none }

/-- The solid-level world with every chunk unwatched. -/
def unwatchedStoneWorld : WorldModel :=
  { allStoneWorld with watched := fun _ => false }

/-- A level whose chunks all store the state id 7, which the registry does not
resolve. -/
def unknownIdWorld : WorldModel :=
  { chunks := fun _ => ⟨fun _ _ _ => 7⟩
    watched := fun _ => true
    registry := fun _ => none }

/-- A living-entity world with exactly one entity: UUID 0, entity id 7. -/
def livingW5 : LivingWorld :=
  { currentLivingEntities := [0]
    living := fun _ => ⟨7, Pose.standing⟩
    packets := [] }

/-- A respawn-side world with two players (UUIDs 0 and 1, handles 0 and 1)
over the solid level. -/
def worldR0 : WorldR :=
  { blocks := allStoneWorld
    currentPlayers := [(0, 0), (1, 1)]
    handles := fun _ => ⟨⟨10, 120, 10⟩, 20, 20, 20⟩ }

theorem get_top_block_go_cons (w : WorldModel) (x z y : Int) (rest : List Int) :
    get_top_block_go w x z (y :: rest) =
      if is_air_block w x y z then get_top_block_go w x z rest else y := by
  cases h : get_block_state w ⟨x, y, z⟩ with
  | error e => simp [get_top_block_go, is_air_block, h]
  | ok st => simp [get_top_block_go, is_air_block, h]

theorem get_top_block_go_all_air (w : WorldModel) (x z : Int) (l : List Int)
    (h : ∀ y ∈ l, is_air_block w x y z = true) :
    get_top_block_go w x z l = 319 := by
  induction l with
  | nil => rfl
  | cons y rest ih =>
    rw [get_top_block_go_cons, if_pos (h y (List.mem_cons_self y rest))]
    exact ih fun y' hy' => h y' (List.mem_cons_of_mem y hy')

theorem get_top_block_go_first_stop (w : WorldModel) (x z : Int)
    (l1 l2 : List Int) (y : Int)
    (h1 : ∀ y' ∈ l1, is_air_block w x y' z = true)
    (h2 : is_air_block w x y z = false) :
    get_top_block_go w x z (l1 ++ y :: l2) = y := by
  induction l1 with
  | nil => rw [List.nil_append, get_top_block_go_cons, h2]; simp
  | cons a rest ih =>
    rw [List.cons_append, get_top_block_go_cons,
      if_pos (h1 a (List.mem_cons_self a rest))]
    exact ih fun y' hy' => h1 y' (List.mem_cons_of_mem a hy')

theorem wrap32_eq_self {n : Int} (h1 : -(2 ^ 31) ≤ n) (h2 : n < 2 ^ 31) :
    wrap32 n = n := by
  unfold wrap32
  have h3 : (0 : Int) ≤ n + 2 ^ 31 := by linarith
  have h4 : n + 2 ^ 31 < 2 ^ 32 := by norm_num at h2 ⊢; linarith
  rw [Int.emod_eq_of_lt h3 h4]
  ring

theorem insertByKey_perm (k : Vector2 → Int) (a : Vector2) (l : List Vector2) :
    List.Perm (insertByKey k a l) (a :: l) := by
  induction l with
  | nil => simp [insertByKey]
  | cons b bs ih =>
    unfold insertByKey
    by_cases h : k a ≤ k b
    · simp [h]
    · simp only [h, if_false]
      exact List.Perm.trans (List.Perm.cons b ih) (List.Perm.swap a b bs)

theorem sortByKey_perm (k : Vector2 → Int) (l : List Vector2) :
    List.Perm (sortByKey k l) l := by
  induction l with
  | nil => simp [sortByKey]
  | cons a l ih =>
    exact List.Perm.trans (insertByKey_perm k a (sortByKey k l))
      (List.Perm.cons a ih)

theorem insertByKey_pairwise (k : Vector2 → Int) (a : Vector2)
    (l : List Vector2) (h : l.Pairwise fun p q => k p ≤ k q) :
    (insertByKey k a l).Pairwise fun p q => k p ≤ k q := by
  induction l with
  | nil => simp [insertByKey]
  | cons b bs ih =>
    unfold insertByKey
    rcases List.pairwise_cons.mp h with ⟨hb, hbs⟩
    by_cases hab : k a ≤ k b
    · rw [if_pos hab]
      refine List.pairwise_cons.mpr ⟨?_, h⟩
      intro q hq
      rcases List.mem_cons.mp hq with hq | hq
      · exact hq ▸ hab
      · exact le_trans hab (hb q hq)
    · simp only [hab, if_false]
      refine List.pairwise_cons.mpr ⟨?_, ih hbs⟩
      intro q hq
      have hmem := (insertByKey_perm k a bs).mem_iff.mp hq
      rcases List.mem_cons.mp hmem with hq' | hq'
      · exact hq' ▸ le_of_not_le hab
      · exact hb q hq'

theorem sortByKey_pairwise (k : Vector2 → Int) (l : List Vector2) :
    (sortByKey k l).Pairwise fun p q => k p ≤ k q := by
  induction l with
  | nil => simp [sortByKey]
  | cons a l ih => exact insertByKey_pairwise k a (sortByKey k l) ih

theorem sort_key_eq_sqDist (center pos : Vector2)
    (h : sqDist center pos < 2 ^ 31) : sort_key center pos = sqDist center pos := by
  have hx : (0 : Int) ≤ (pos.x - center.x) * (pos.x - center.x) :=
    mul_self_nonneg _
  have hz : (0 : Int) ≤ (pos.z - center.z) * (pos.z - center.z) :=
    mul_self_nonneg _
  have hxlt : (pos.x - center.x) * (pos.x - center.x) < 2 ^ 31 := by
    unfold sqDist at h; linarith
  have hzlt : (pos.z - center.z) * (pos.z - center.z) < 2 ^ 31 := by
    unfold sqDist at h; linarith
  have hxb : -(2 ^ 31) ≤ pos.x - center.x ∧ pos.x - center.x < 2 ^ 31 := by
    constructor <;> nlinarith
  have hzb : -(2 ^ 31) ≤ pos.z - center.z ∧ pos.z - center.z < 2 ^ 31 := by
    constructor <;> nlinarith
  have e0 : sort_key center pos =
      wrap32 (wrap32 (wrap32 (pos.x - center.x) * wrap32 (pos.x - center.x)) +
        wrap32 (wrap32 (pos.z - center.z) * wrap32 (pos.z - center.z))) := rfl
  have hsum : (pos.x - center.x) * (pos.x - center.x) +
      (pos.z - center.z) * (pos.z - center.z) < 2 ^ 31 := by
    unfold sqDist at h; linarith
  rw [e0, wrap32_eq_self hxb.1 hxb.2, wrap32_eq_self hzb.1 hzb.2,
    wrap32_eq_self (by linarith) hxlt, wrap32_eq_self (by linarith) hzlt,
    wrap32_eq_self (by linarith) hsum]
  rfl

theorem pairwise_of_key_eq (k k2 : Vector2 → Int) (l : List Vector2)
    (hmem : ∀ p ∈ l, k p = k2 p) (h : l.Pairwise fun p q => k p ≤ k q) :
    l.Pairwise fun p q => k2 p ≤ k2 q := by
  induction l with
  | nil => exact List.Pairwise.nil
  | cons a t ih =>
    rcases List.pairwise_cons.mp h with ⟨ha, ht⟩
    refine List.pairwise_cons.mpr
      ⟨?_, ih (fun p hp => hmem p (List.mem_cons_of_mem a hp)) ht⟩
    intro q hq
    rw [← hmem a (List.mem_cons_self a t), ← hmem q (List.mem_cons_of_mem a hq)]
    exact ha q hq

theorem hashmap_insert_nodup (m : List (Nat × Nat)) (k v : Nat)
    (h : (m.map Prod.fst).Nodup) :
    ((hashmap_insert m k v).map Prod.fst).Nodup := by
  unfold hashmap_insert
  rw [List.map_cons, List.nodup_cons]
  constructor
  · intro hk
    rcases List.mem_map.mp hk with ⟨p, hp, hpk⟩
    exact of_decide_eq_true (List.mem_filter.mp hp).2 hpk
  · exact h.sublist (List.Sublist.map Prod.fst (List.filter_sublist m))

theorem hashmap_remove_nodup (m : List (Nat × Nat)) (k : Nat)
    (h : (m.map Prod.fst).Nodup) :
    ((hashmap_remove m k).map Prod.fst).Nodup :=
  h.sublist (List.Sublist.map Prod.fst (List.filter_sublist m))

theorem apply_reg_ops_nodup (ops : List RegOp) (m : PlayerMap)
    (h : (m.map Prod.fst).Nodup) :
    ((apply_reg_ops ops m).map Prod.fst).Nodup := by
  induction ops generalizing m with
  | nil => exact h
  | cons op rest ih =>
    cases op with
    | add u hd => exact ih _ (hashmap_insert_nodup m u hd h)
    | remove u => exact ih _ (hashmap_remove_nodup m u h)

theorem stream_consume_unwatched_not_sent (w : WorldModel) (closed : Bool)
    (arrivals : List Vector2) (pos : Vector2) (h : w.watched pos = false) :
    pos ∉ (stream_consume w closed arrivals).1 := by
  induction arrivals with
  | nil => simp [stream_consume]
  | cons p rest ih =>
    unfold stream_consume
    by_cases hp : w.watched p = false
    · simpa [hp] using ih
    · cases closed with
      | true => simpa [hp] using ih
      | false =>
        simp only [hp, if_false]
        intro hmem
        rcases List.mem_cons.mp hmem with he | he
        · exact hp (he ▸ h)
        · exact ih he

theorem stream_consume_unwatched_cleaned (w : WorldModel) (closed : Bool)
    (arrivals : List Vector2) (pos : Vector2) (h : w.watched pos = false) :
    (stream_consume w closed arrivals).2.count pos = arrivals.count pos := by
  induction arrivals with
  | nil => rfl
  | cons p rest ih =>
    unfold stream_consume
    by_cases hp : w.watched p = false
    · simp [hp, List.count_cons, ih]
    · have hne : p ≠ pos := fun he => hp (he ▸ h)
      cases closed with
      | true => simp [hp, List.count_cons, hne, ih]
      | false => simp [hp, List.count_cons, hne, ih]

theorem get_block_state_id_out_of_bounds (w : WorldModel) (pos : Vector3i)
    (hy : ¬(-64 ≤ pos.y ∧ pos.y ≤ 319)) :
    get_block_state_id w pos =
      Except.error GetBlockError.BlockOutOfWorldBounds := by
  unfold get_block_state_id receive_chunk ChunkBlocks.get_block
  simp [chunk_and_chunk_relative_position, hy]

theorem get_block_state_id_in_bounds (w : WorldModel) (pos : Vector3i)
    (hy : -64 ≤ pos.y ∧ pos.y ≤ 319) :
    get_block_state_id w pos =
      Except.ok ((w.chunks (chunk_and_chunk_relative_position pos).1).states
        (chunk_and_chunk_relative_position pos).2.x pos.y
        (chunk_and_chunk_relative_position pos).2.z) := by
  unfold get_block_state_id receive_chunk ChunkBlocks.get_block
  simp [chunk_and_chunk_relative_position, hy]

theorem set_block_state_prev (w : WorldModel) (pos : Vector3i) (s : Nat) :
    (set_block_state w pos s).2.1 =
      (w.chunks (chunk_and_chunk_relative_position pos).1).states
        (chunk_and_chunk_relative_position pos).2.x pos.y
        (chunk_and_chunk_relative_position pos).2.z := by
  by_cases hy : -64 ≤ pos.y ∧ pos.y ≤ 319 <;>
    simp [set_block_state, receive_chunk, ChunkBlocks.set_block,
      chunk_and_chunk_relative_position, hy]

theorem set_block_state_get (w : WorldModel) (pos : Vector3i) (s : Nat)
    (hy : -64 ≤ pos.y ∧ pos.y ≤ 319) :
    get_block_state_id (set_block_state w pos s).1 pos = Except.ok s := by
  rw [get_block_state_id_in_bounds _ _ hy]
  simp [set_block_state, receive_chunk, ChunkBlocks.set_block,
    chunk_and_chunk_relative_position, hy]

theorem get_block_state_unknown_id (w : WorldModel) (pos : Vector3i) (id : Nat)
    (hid : get_block_state_id w pos = Except.ok id)
    (hreg : w.registry id = none) :
    get_block_state w pos = Except.error GetBlockError.InvalidBlockId := by
  unfold get_block_state
  rw [hid]
  simp [hreg]

/-- Claim C1, counterexample.  The claim asserts that a chunk whose watch
status is false at arrival is, in particular, never returned to the caller of
`receive_chunk`.  On the code, `receive_chunk` (mod.rs lines 895-911) calls
`clean_chunk` for the unwatched chunk but still returns the fetched chunk to
its caller: at the concrete unwatched coordinate (0,0) the returned value is
exactly the fetched chunk. -/
theorem C1_counterexample :
    unwatchedStoneWorld.watched ⟨0, 0⟩ = false ∧
    (receive_chunk unwatchedStoneWorld ⟨0, 0⟩).2 = [⟨0, 0⟩] ∧
    (receive_chunk unwatchedStoneWorld ⟨0, 0⟩).1 =
      unwatchedStoneWorld.chunks ⟨0, 0⟩ :=
  ⟨rfl, rfl, rfl⟩

/-- Claim C1, amended.  For a chunk whose watch status is false at arrival:
the streaming task of `spawn_world_chunks` never sends it to the client and
calls `clean_chunk` exactly once per such arrival; the single-chunk path
`receive_chunk` also calls `clean_chunk` exactly once for it, but still
returns the chunk to its caller instead of dropping it. -/
theorem C1_amended (w : WorldModel) (closed : Bool) (arrivals : List Vector2)
    (pos : Vector2) (h : w.watched pos = false) :
    pos ∉ (stream_consume w closed arrivals).1 ∧
    (stream_consume w closed arrivals).2.count pos = arrivals.count pos ∧
    (receive_chunk w pos).2 = [pos] ∧
    (receive_chunk w pos).1 = w.chunks pos := by
  refine ⟨stream_consume_unwatched_not_sent w closed arrivals pos h,
    stream_consume_unwatched_cleaned w closed arrivals pos h, ?_, rfl⟩
  unfold receive_chunk
  rw [h]
  rfl

/-- Claim C1, witness: the amended statement evaluated at a concrete unwatched
coordinate, a two-chunk arrival list and an open client. -/
theorem C1_witness :
    (⟨0, 0⟩ : Vector2) ∉
      (stream_consume unwatchedStoneWorld false [⟨0, 0⟩, ⟨1, 1⟩]).1 ∧
    (stream_consume unwatchedStoneWorld false [⟨0, 0⟩, ⟨1, 1⟩]).2.count ⟨0, 0⟩ =
      ([⟨0, 0⟩, ⟨1, 1⟩] : List Vector2).count ⟨0, 0⟩ ∧
    (receive_chunk unwatchedStoneWorld ⟨0, 0⟩).2 = [⟨0, 0⟩] ∧
    (receive_chunk unwatchedStoneWorld ⟨0, 0⟩).1 =
      unwatchedStoneWorld.chunks ⟨0, 0⟩ :=
  C1_amended unwatchedStoneWorld false [⟨0, 0⟩, ⟨1, 1⟩] ⟨0, 0⟩ rfl

/-- Claim C2, counterexample.  The claim asserts that on a column that is
entirely air, `get_top_block` returns the lowest scanned coordinate (-64).
On the code, the loop over `(-64..=319).rev()` falls through and the function
returns `319` — the topmost coordinate: on the all-air world the whole
scanned column is air, yet the result is 319, not -64. -/
theorem C2_counterexample :
    (topDownYs.all fun y => is_air_block allAirWorld 0 y 0) = true ∧
    get_top_block allAirWorld ⟨0, 0⟩ = 319 ∧ (319 : Int) ≠ -64 := by
  refine ⟨by decide, by decide, by decide⟩

/-- Claim C2, amended.  `get_top_block` scans downward from y = 319 to
y = -64 at the given column and returns the first y whose block-state read is
not a successful air read; for a column that is entirely air it falls back to
319, the topmost (not the lowest) scanned coordinate. -/
theorem C2_amended (w : WorldModel) (x z : Int) :
    ((∀ y ∈ topDownYs, is_air_block w x y z = true) →
      get_top_block w ⟨x, z⟩ = 319) ∧
    ∀ l1 y l2, topDownYs = l1 ++ y :: l2 →
      (∀ y' ∈ l1, is_air_block w x y' z = true) →
      is_air_block w x y z = false →
      get_top_block w ⟨x, z⟩ = y := by
  constructor
  · intro h
    exact get_top_block_go_all_air w x z topDownYs h
  · intro l1 y l2 hdecomp h1 h2
    unfold get_top_block
    rw [hdecomp]
    exact get_top_block_go_first_stop w x z l1 l2 y h1 h2

/-- Claim C2, witness: on the all-solid world the very first scanned
coordinate (319) is not air, so the scan stops there. -/
theorem C2_witness :
    get_top_block allStoneWorld ⟨0, 0⟩ = 319 :=
  (C2_amended allStoneWorld 0 0).2 [] 319 (downFrom 383 318) rfl
    (by intro y' hy'; simp at hy') (by decide)

/-- Claim C3, counterexample.  The claim asserts that `receive_chunks` on the
empty request list short-circuits without spawning a worker and does not
panic.  On the code there is no empty-list check: `mpsc::channel(0)` is
reached and tokio's bounded channel constructor panics on capacity 0. -/
theorem C3_counterexample :
    receive_chunks [] =
      Except.error "mpsc bounded channel requires buffer > 0" := rfl

/-- Claim C3, amended.  `receive_chunks` never short-circuits: on the empty
request list it panics in the bounded-channel constructor (capacity 0), in
line with the documented precondition of `spawn_world_chunks` ("Chunks have
to be non-empty"); on every non-empty list it creates a channel whose
capacity equals the request length and unconditionally spawns a fetch
worker. -/
theorem C3_amended (chunks : List Vector2) :
    (chunks = [] →
      receive_chunks chunks =
        Except.error "mpsc bounded channel requires buffer > 0") ∧
    (chunks ≠ [] →
      receive_chunks chunks = Except.ok ⟨chunks.length, true⟩) := by
  constructor
  · intro h
    subst h
    rfl
  · intro h
    unfold receive_chunks
    rw [if_neg fun hc => h (List.length_eq_zero.mp hc)]

/-- Claim C3, witness: the amended statement evaluated on a singleton request
list. -/
theorem C3_witness :
    ([⟨0, 0⟩] : List Vector2) ≠ [] ∧
    receive_chunks [⟨0, 0⟩] = Except.ok ⟨1, true⟩ :=
  ⟨by decide, (C3_amended [⟨0, 0⟩]).2 (by decide)⟩

/-- Claim C4, counterexample.  The claim asserts that `get_block_state_id`
returns an unknown-id error when the stored numeric state id does not resolve
in the block/state registry.  On the code (mod.rs lines 928-939) the id is
returned without consulting the registry: on a world storing the
unresolvable id 7, the result is `Ok 7`, not an error. -/
theorem C4_counterexample :
    unknownIdWorld.registry 7 = none ∧
    get_block_state_id unknownIdWorld ⟨0, 0, 0⟩ = Except.ok 7 :=
  ⟨rfl, rfl⟩

/-- Claim C4, amended.  `get_block_state_id` returns the out-of-bounds error
exactly when the vertical coordinate lies outside the valid column range, and
otherwise returns the stored id without consulting the registry; the
unknown-id error arises only in the wrappers (`get_block_state` and friends)
that resolve the id; and `set_block_state` has no error-returning result at
all — it returns the previously stored id unconditionally. -/
theorem C4_amended (w : WorldModel) (pos : Vector3i) (s : Nat) :
    (¬(-64 ≤ pos.y ∧ pos.y ≤ 319) →
      get_block_state_id w pos =
        Except.error GetBlockError.BlockOutOfWorldBounds) ∧
    ((-64 ≤ pos.y ∧ pos.y ≤ 319) →
      get_block_state_id w pos =
        Except.ok ((w.chunks (chunk_and_chunk_relative_position pos).1).states
          (chunk_and_chunk_relative_position pos).2.x pos.y
          (chunk_and_chunk_relative_position pos).2.z)) ∧
    (∀ id, get_block_state_id w pos = Except.ok id → w.registry id = none →
      get_block_state w pos = Except.error GetBlockError.InvalidBlockId) ∧
    (set_block_state w pos s).2.1 =
      (w.chunks (chunk_and_chunk_relative_position pos).1).states
        (chunk_and_chunk_relative_position pos).2.x pos.y
        (chunk_and_chunk_relative_position pos).2.z :=
  ⟨get_block_state_id_out_of_bounds w pos,
   get_block_state_id_in_bounds w pos,
   fun id => get_block_state_unknown_id w pos id,
   set_block_state_prev w pos s⟩

/-- Claim C4, witness: the amended statement evaluated on the
unresolvable-id world, at an out-of-range and an in-range position. -/
theorem C4_witness :
    get_block_state_id unknownIdWorld ⟨0, 1000, 0⟩ =
      Except.error GetBlockError.BlockOutOfWorldBounds ∧
    get_block_state unknownIdWorld ⟨0, 0, 0⟩ =
      Except.error GetBlockError.InvalidBlockId ∧
    (set_block_state unknownIdWorld ⟨0, 0, 0⟩ 3).2.1 = 7 :=
  ⟨(C4_amended unknownIdWorld ⟨0, 1000, 0⟩ 3).1 (by decide),
   (C4_amended unknownIdWorld ⟨0, 0, 0⟩ 3).2.2.1 7 rfl rfl,
   (C4_amended unknownIdWorld ⟨0, 0, 0⟩ 3).2.2.2⟩

/-- Claim C5, behaviour of the code at the failing input (code bug).
On a world with one living entity (UUID 0, entity id 7): the lookup by
entity id succeeds before removal and during the grace window, as claimed;
but after the 2 s delay elapses the deferred task has removed the UUID only
from its captured CLONE of `current_living_entities` (mod.rs line 843 clones
the map, line 849 removes from the clone), so the world's registry still
contains the entity and the lookup STILL succeeds, contradicting the claim
that it fails.  Exactly one remove-entities broadcast was sent, and the
mutated clone (now empty) is simply dropped. -/
theorem C5_code_behavior :
    get_living_entity_by_entityid livingW5 7 = some 0 ∧
    get_living_entity_by_entityid (remove_living_entity_grace livingW5 0).1 7 =
      some 0 ∧
    get_living_entity_by_entityid
      (remove_living_entity_completed livingW5 0).1 7 = some 0 ∧
    (remove_living_entity_completed livingW5 0).1.currentLivingEntities = [0] ∧
    (remove_living_entity_completed livingW5 0).1.packets =
      [Packet.removeEntities 7] ∧
    (remove_living_entity_completed livingW5 0).2 = [] :=
  ⟨rfl, rfl, rfl, rfl, rfl, rfl⟩

/-- Claim C6, counterexample.  The sort key is computed in wrapping `i32`
arithmetic: at center (0,0), the in-world chunk (65536, 0) has true squared
distance 2^32, whose `i32` computation wraps to 0, so it sorts BEFORE the
chunk (1, 0) of true squared distance 1 — the dispatch sequence is not
non-decreasing in squared Euclidean distance from the center. -/
theorem C6_counterexample :
    spawn_world_chunks_dispatch [⟨1, 0⟩, ⟨65536, 0⟩] ⟨0, 0⟩ =
      [⟨65536, 0⟩, ⟨1, 0⟩] ∧
    sqDist ⟨0, 0⟩ ⟨65536, 0⟩ > sqDist ⟨0, 0⟩ ⟨1, 0⟩ := by
  refine ⟨by decide, by decide⟩

/-- Claim C6, amended.  Before dispatch the requested coordinates are sorted
by the squared-distance key computed in wrapping 32-bit arithmetic (the
source uses `sort_unstable_by_key`, which is deterministic for a given input
but guarantees nothing about the order of key-equal elements); the dispatched
list is a permutation of the request, and whenever every requested
coordinate's true squared distance from the center is below 2^31 (no `i32`
overflow), the dispatch sequence is non-decreasing in squared Euclidean
distance from the center. -/
theorem C6_amended (center : Vector2) (chunks : List Vector2)
    (h : ∀ p ∈ chunks, sqDist center p < 2 ^ 31) :
    List.Perm (spawn_world_chunks_dispatch chunks center) chunks ∧
    (spawn_world_chunks_dispatch chunks center).Pairwise
      fun p q => sqDist center p ≤ sqDist center q := by
  have hperm := sortByKey_perm (sort_key center) chunks
  refine ⟨hperm, ?_⟩
  have hpair := sortByKey_pairwise (sort_key center) chunks
  exact pairwise_of_key_eq (sort_key center) (sqDist center)
    (spawn_world_chunks_dispatch chunks center)
    (fun p hp => sort_key_eq_sqDist center p (h p (hperm.mem_iff.mp hp)))
    hpair

/-- Claim C6, witness: the amended statement evaluated on a small
overflow-free request. -/
theorem C6_witness :
    List.Perm (spawn_world_chunks_dispatch [⟨3, 0⟩, ⟨1, 0⟩] ⟨0, 0⟩)
      [⟨3, 0⟩, ⟨1, 0⟩] ∧
    (spawn_world_chunks_dispatch [⟨3, 0⟩, ⟨1, 0⟩] ⟨0, 0⟩).Pairwise
      fun p q => sqDist ⟨0, 0⟩ p ≤ sqDist ⟨0, 0⟩ q :=
  C6_amended ⟨0, 0⟩ [⟨3, 0⟩, ⟨1, 0⟩] (by decide)

/-- Claim C7, confirmed (over the spec-modelled chunk block store).  For
every in-bounds position: reading right after `set_block_state(p, s)`
returns `s`; `set_block_state` returns the id previously stored at `p`; and
setting to `a` then to `b` makes the second call return `a`. -/
theorem C7_round_trip (w : WorldModel) (pos : Vector3i) (a b s : Nat)
    (hy : -64 ≤ pos.y ∧ pos.y ≤ 319) :
    get_block_state_id (set_block_state w pos s).1 pos = Except.ok s ∧
    (get_block_state_id w pos = Except.ok a →
      (set_block_state w pos s).2.1 = a) ∧
    (set_block_state (set_block_state w pos a).1 pos b).2.1 = a := by
  refine ⟨set_block_state_get w pos s hy, ?_, ?_⟩
  · intro ha
    rw [get_block_state_id_in_bounds w pos hy] at ha
    rw [set_block_state_prev w pos s]
    exact (Except.ok.injEq _ _).mp ha.symm |>.symm
  · rw [set_block_state_prev]
    have := set_block_state_get w pos a hy
    rw [get_block_state_id_in_bounds _ pos hy] at this
    exact (Except.ok.injEq _ _).mp this

/-- Claim C7, witness: the round trip evaluated on the solid world at
position (0, 5, 0) with ids 3 and 4. -/
theorem C7_witness :
    get_block_state_id (set_block_state allStoneWorld ⟨0, 5, 0⟩ 3).1 ⟨0, 5, 0⟩ =
      Except.ok 3 ∧
    (set_block_state allStoneWorld ⟨0, 5, 0⟩ 3).2.1 = 0 ∧
    (set_block_state (set_block_state allStoneWorld ⟨0, 5, 0⟩ 3).1
      ⟨0, 5, 0⟩ 4).2.1 = 3 :=
  ⟨(C7_round_trip allStoneWorld ⟨0, 5, 0⟩ 0 4 3 (by decide)).1,
   (C7_round_trip allStoneWorld ⟨0, 5, 0⟩ 0 4 3 (by decide)).2.1 rfl,
   (C7_round_trip allStoneWorld ⟨0, 5, 0⟩ 3 4 3 (by decide)).2.2⟩

/-- Claim C8, confirmed.  Starting from any duplicate-free map, every
sequence of add/remove operations leaves the player map free of duplicate
UUID keys (in particular every sequence applied to the empty map does), and
a get by UUID immediately following an add for that UUID returns the added
handle. -/
theorem C8_registry_invariant (ops : List RegOp) (m : PlayerMap) (u h : Nat)
    (hm : (m.map Prod.fst).Nodup) :
    ((apply_reg_ops ops []).map Prod.fst).Nodup ∧
    ((apply_reg_ops ops m).map Prod.fst).Nodup ∧
    get_player_by_uuid (add_player m u h) u = some h := by
  refine ⟨apply_reg_ops_nodup ops [] List.nodup_nil,
    apply_reg_ops_nodup ops m hm, ?_⟩
  unfold get_player_by_uuid add_player hashmap_get hashmap_insert
  rw [List.find?_cons_of_pos _ (by simp)]
  rfl

/-- Claim C8, witness: a four-operation sequence (including a same-UUID
re-add and a remove) from the empty map, and a get-after-add on a concrete
one-entry map. -/
theorem C8_witness :
    ((apply_reg_ops
        [RegOp.add 1 10, RegOp.add 2 20, RegOp.add 1 11, RegOp.remove 2]
        []).map Prod.fst).Nodup ∧
    get_player_by_uuid (add_player [(2, 20)] 1 10) 1 = some 10 :=
  ⟨(C8_registry_invariant
      [RegOp.add 1 10, RegOp.add 2 20, RegOp.add 1 11, RegOp.remove 2]
      [(2, 20)] 1 10 (by decide)).1,
   (C8_registry_invariant
      [RegOp.add 1 10, RegOp.add 2 20, RegOp.add 1 11, RegOp.remove 2]
      [(2, 20)] 1 10 (by decide)).2.2⟩

/-- Claim C9, confirmed.  `respawn_player` leaves the `current_players` map
(and the level's block store) identical, and mutates no player handle other
than the respawning player's own: only that handle's transient state
(position, health) changes in place. -/
theorem C9_respawn_frame (w : WorldR) (uuid handle : Nat) (alive : Bool) :
    (respawn_player w uuid handle alive).1.currentPlayers = w.currentPlayers ∧
    (respawn_player w uuid handle alive).1.blocks = w.blocks ∧
    ∀ h2, h2 ≠ handle →
      (respawn_player w uuid handle alive).1.handles h2 = w.handles h2 := by
  refine ⟨rfl, rfl, ?_⟩
  intro h2 hne
  show (if h2 = handle then _ else w.handles h2) = w.handles h2
  exact if_neg hne

/-- Claim C9, witness: the frame property evaluated on a concrete two-player
world, respawning player 0 and observing player 1's handle. -/
theorem C9_witness :
    (respawn_player worldR0 0 0 true).1.currentPlayers =
      worldR0.currentPlayers ∧
    (respawn_player worldR0 0 0 true).1.handles 1 = worldR0.handles 1 :=
  ⟨(C9_respawn_frame worldR0 0 0 true).1,
   (C9_respawn_frame worldR0 0 0 true).2.2 1 (by decide)⟩

/-- Claim C10, confirmed.  During `get_top_block`'s downward scan, a y at
which the block-state read returns an error behaves exactly like a non-air
block: the scan stops and that y is returned immediately (no propagation of
the error — the return type is a plain integer — and no skipping). -/
theorem C10_error_stops_scan (w : WorldModel) (x z : Int)
    (l1 : List Int) (y : Int) (l2 : List Int) (e : GetBlockError)
    (hdecomp : topDownYs = l1 ++ y :: l2)
    (h1 : ∀ y' ∈ l1, is_air_block w x y' z = true)
    (h2 : get_block_state w ⟨x, y, z⟩ = Except.error e) :
    get_top_block w ⟨x, z⟩ = y := by
  have hair : is_air_block w x y z = false := by
    unfold is_air_block
    rw [h2]
  unfold get_top_block
  rw [hdecomp]
  exact get_top_block_go_first_stop w x z l1 l2 y h1 hair

/-- Claim C10, witness: on the unresolvable-id world the read at the first
scanned coordinate (319) errors with `InvalidBlockId`, and `get_top_block`
returns 319 immediately. -/
theorem C10_witness :
    get_block_state unknownIdWorld ⟨0, 319, 0⟩ =
      Except.error GetBlockError.InvalidBlockId ∧
    get_top_block unknownIdWorld ⟨0, 0⟩ = 319 :=
  ⟨rfl,
   C10_error_stops_scan unknownIdWorld 0 0 [] 319 (downFrom 383 318)
     GetBlockError.InvalidBlockId rfl (by intro y' hy'; simp at hy') rfl⟩

end PumpkinWorld
